import Mathlib

/-!
Shallow embedding of the `dos-like-rs` binding crate.

The crate is a thin safe wrapper over the native `dos-like` C library.
Pure wrapper logic (path validation, sentinel-to-error conversion,
slice-length checks, integer casts) is embedded directly from the Rust
sources under `src/`.  The native entry points themselves are opaque:
each embedded wrapper takes the native function as an explicit oracle
argument and additionally returns the list of arguments it passed across
the foreign boundary, so that "the native call was (not) made" is a
provable statement.
-/

namespace DosLike

/-- Rust `x as u32` applied to a `c_int` value (truncating 2-complement cast). -/
def intToU32 (x : Int) : Nat := (x % (2 ^ 32 : Int)).toNat

/-- Rust `x as u16` applied to a `c_int` value. -/
def intToU16 (x : Int) : Nat := (x % (2 ^ 16 : Int)).toNat

/-- Rust `x as u8` applied to a `c_int` or `c_char` value. -/
def intToU8 (x : Int) : Nat := (x % (2 ^ 8 : Int)).toNat

/-- Rust `x as i32` (`as c_int`) applied to a `u32` value. -/
def u32ToI32 (x : Nat) : Int :=
  if x < 2 ^ 31 then (x : Int) else (x : Int) - 2 ^ 32

/-- Rust `x as i32` (`as c_int`) applied to a `usize` value. -/
def usizeToI32 (x : Nat) : Int := u32ToI32 (x % 2 ^ 32)

/-- Rust `x as usize` applied to a `c_int` value (sign-extend, reinterpret). -/
def intToUsize (x : Int) : Nat := (x % (2 ^ 64 : Int)).toNat

/-- Embeds `std::ffi::CString::new` on the byte content of a `&str`:
fails exactly when the byte string contains a null byte, otherwise
appends the terminating null. -/
def cstring_new (s : List Nat) : Option (List Nat) :=
  if 0 ∈ s then none else some (s ++ [0])

/-- Embeds `FileError` from `src/lib.rs`. -/
inductive FileError : Type
  | BadFilePath : FileError
  | FileNotFound : FileError
deriving DecidableEq, Repr

/-- Result of an embedded wrapper call: the Rust-visible result together
with the trace of argument lists passed to the wrapper's native entry
point (empty when the foreign boundary was never crossed). -/
structure FfiCall (α : Type) : Type where
  result : Except FileError α
  trace : List (List Nat)

/-- Out-parameters and pixel-data pointer produced by a successful native
`loadgif` call (the pointer is an address, never 0 in the `some` case). -/
structure GifOut : Type where
  width : Int
  height : Int
  palcount : Int
  palette : List Nat
  dataPtr : Nat
deriving DecidableEq, Repr

/-- Embeds `Image` from `src/lib.rs` / `src/video.rs` (the `data` pointer
is kept as an address). -/
structure Image : Type where
  palette : List Nat
  palette_count : Nat
  width : Nat
  height : Nat
  data : Nat
deriving DecidableEq, Repr

/-- Embeds `load_gif` from `src/video.rs` (identical code in `src/lib.rs`):
path validation via `CString::new`, then one native `loadgif` call whose
null result maps to `FileNotFound` and whose non-null result is wrapped
into an `Image` with `as u32` casts on the out-parameters. -/
def load_gif (loadgif : List Nat → Option GifOut) (path : List Nat) :
    FfiCall Image :=
  match cstring_new path with
  | none => ⟨.error .BadFilePath, []⟩
  | some filename =>
    match loadgif filename with
    | none => ⟨.error .FileNotFound, [filename]⟩
    | some g =>
      ⟨.ok { width := intToU32 g.width
             height := intToU32 g.height
             palette_count := intToU32 g.palcount
             palette := g.palette
             data := g.dataPtr }, [filename]⟩

/-- Embeds `Sound` from `src/sound.rs`: a raw pointer wrapper. -/
structure Sound : Type where
  ptr : Nat
deriving DecidableEq, Repr

/-- Embeds `load_wav` from `src/sound.rs`: path validation, one native
`loadwav` call, null pointer (address 0) maps to `FileNotFound`. -/
def load_wav (loadwav : List Nat → Nat) (path : List Nat) : FfiCall Sound :=
  match cstring_new path with
  | none => ⟨.error .BadFilePath, []⟩
  | some filename =>
    let p := loadwav filename
    if p = 0 then ⟨.error .FileNotFound, [filename]⟩
    else ⟨.ok ⟨p⟩, [filename]⟩

/-- Embeds `Music` from `src/music.rs`: a `NonNull` pointer wrapper. -/
structure Music : Type where
  ptr : Nat
  ptr_ne : ptr ≠ 0

/-- Embeds `std::ptr::NonNull::new`. -/
def nonNull_new (p : Nat) : Option Music :=
  if h : p = 0 then none else some ⟨p, h⟩

/-- Embeds `Music::load_mid` from `src/music.rs`. -/
def load_mid (loadmid : List Nat → Nat) (path : List Nat) : FfiCall Music :=
  match cstring_new path with
  | none => ⟨.error .BadFilePath, []⟩
  | some filename =>
    match nonNull_new (loadmid filename) with
    | some music => ⟨.ok music, [filename]⟩
    | none => ⟨.error .FileNotFound, [filename]⟩

/-- Embeds `Music::load_mus` from `src/music.rs`. -/
def load_mus (loadmus : List Nat → Nat) (path : List Nat) : FfiCall Music :=
  match cstring_new path with
  | none => ⟨.error .BadFilePath, []⟩
  | some filename =>
    match nonNull_new (loadmus filename) with
    | some music => ⟨.ok music, [filename]⟩
    | none => ⟨.error .FileNotFound, [filename]⟩

/-- Embeds `Music::load_mod` from `src/music.rs`. -/
def load_mod (loadmod : List Nat → Nat) (path : List Nat) : FfiCall Music :=
  match cstring_new path with
  | none => ⟨.error .BadFilePath, []⟩
  | some filename =>
    match nonNull_new (loadmod filename) with
    | some music => ⟨.ok music, [filename]⟩
    | none => ⟨.error .FileNotFound, [filename]⟩

/-- Embeds `Music::load_opb` from `src/music.rs`. -/
def load_opb (loadopb : List Nat → Nat) (path : List Nat) : FfiCall Music :=
  match cstring_new path with
  | none => ⟨.error .BadFilePath, []⟩
  | some filename =>
    match nonNull_new (loadopb filename) with
    | some music => ⟨.ok music, [filename]⟩
    | none => ⟨.error .FileNotFound, [filename]⟩

/-- Embeds `Font` from `src/video.rs`: a `NonZeroU32` identifier. -/
structure Font : Type where
  id : Nat
  id_ne : id ≠ 0

/-- Embeds `std::num::NonZeroU32::new`. -/
def nonZeroU32_new (x : Nat) : Option { n : Nat // n ≠ 0 } :=
  if h : x = 0 then none else some ⟨x, h⟩

/-- Embeds `Font::from_raw_id` from `src/video.rs`:
`NonZeroU32::new(id as u32).map(Font)`. -/
def Font.from_raw_id (id : Int) : Option Font :=
  (nonZeroU32_new (intToU32 id)).map fun n => ⟨n.1, n.2⟩

/-- Embeds `Font::from_id` from `src/video.rs`:
`Self::from_raw_id(id as c_int)`. -/
def Font.from_id (id : Nat) : Option Font :=
  Font.from_raw_id (u32ToI32 id)

/-- Embeds `install_user_font` from `src/video.rs`: path validation, one
native `installuserfont` call returning a `c_int` identifier, then
`Font::from_id(font_id as u32).ok_or(FileError::FileNotFound)`. -/
def install_user_font (installuserfont : List Nat → Int) (path : List Nat) :
    FfiCall Font :=
  match cstring_new path with
  | none => ⟨.error .BadFilePath, []⟩
  | some filename =>
    match Font.from_id (intToU32 (installuserfont filename)) with
    | some font => ⟨.ok font, [filename]⟩
    | none => ⟨.error .FileNotFound, [filename]⟩

/-- Embeds `Soundbank` from `src/music.rs`: a `NonZeroU32` identifier. -/
structure Soundbank : Type where
  id : Nat
  id_ne : id ≠ 0

/-- Embeds `Soundbank::from_raw_id` from `src/music.rs`. -/
def Soundbank.from_raw_id (id : Int) : Option Soundbank :=
  (nonZeroU32_new (intToU32 id)).map fun n => ⟨n.1, n.2⟩

/-- Embeds `Soundbank::from_id` from `src/music.rs`. -/
def Soundbank.from_id (id : Nat) : Option Soundbank :=
  Soundbank.from_raw_id (u32ToI32 id)

/-- Embeds `install_user_soundbank` from `src/music.rs`. -/
def install_user_soundbank (installusersoundbank : List Nat → Int)
    (path : List Nat) : FfiCall Soundbank :=
  match cstring_new path with
  | none => ⟨.error .BadFilePath, []⟩
  | some filename =>
    match Soundbank.from_id (intToU32 (installusersoundbank filename)) with
    | some sb => ⟨.ok sb, [filename]⟩
    | none => ⟨.error .FileNotFound, [filename]⟩

/-- Abstract native video subsystem: `screenbuffer`, `swapbuffers` (which
mutates internal state and returns the new front-buffer pointer),
`screenwidth` and `screenheight`, over an opaque state type. -/
structure VideoSys (σ : Type) : Type where
  screenbuffer : σ → Nat
  swapbuffers : σ → σ × Nat
  screenwidth : σ → Int
  screenheight : σ → Int

/-- A raw slice as produced by `std::slice::from_raw_parts_mut`:
a base address and a length. -/
structure Slice : Type where
  ptr : Nat
  len : Nat
deriving DecidableEq, Repr

/-- Embeds `screen_buffer` from `src/video.rs`: queries `screenbuffer`,
then `screenwidth` and `screenheight` (each `as usize`), and forms the
slice of length `width * height` over the returned pointer. -/
def screen_buffer {σ : Type} (sys : VideoSys σ) (s : σ) : Slice :=
  let buf := sys.screenbuffer s
  let width := intToUsize (sys.screenwidth s)
  let height := intToUsize (sys.screenheight s)
  ⟨buf, width * height⟩

/-- Embeds `swap_buffers` from `src/video.rs`: calls `swapbuffers` (which
may mutate native state), then queries `screenwidth` and `screenheight`
on the resulting state and forms the slice of length `width * height`. -/
def swap_buffers {σ : Type} (sys : VideoSys σ) (s : σ) : σ × Slice :=
  let r := sys.swapbuffers s
  let width := intToUsize (sys.screenwidth r.1)
  let height := intToUsize (sys.screenheight r.1)
  (r.1, ⟨r.2, width * height⟩)

/-- Abstract native text-cursor state: the values returned by the native
`wherex` and `wherey` queries (`c_int`). -/
structure CursorState : Type where
  wherex : Int
  wherey : Int
deriving DecidableEq, Repr

/-- Embeds `where_x` from `src/video.rs`:
`dos_like_sys::wherex().max(0) as u16`. -/
def where_x (s : CursorState) : Nat := intToU16 (max s.wherex 0)

/-- Embeds `where_y` from `src/video.rs`: the body calls
`dos_like_sys::wherex().max(0) as u16` (it forwards to `wherex`,
not `wherey`). -/
def where_y (s : CursorState) : Nat := intToU16 (max s.wherex 0)

/-- Embeds `Image::palette` from `src/video.rs` / `src/lib.rs`:
`&self.palette[..self.palette_count as usize * 3]`; Rust slicing panics
(here `none`) when the upper bound exceeds the array length. -/
def Image.paletteView (img : Image) : Option (List Nat) :=
  if img.palette_count * 3 ≤ img.palette.length then
    some (img.palette.take (img.palette_count * 3))
  else none

/-- Embeds `Image::palette_mut` from `src/video.rs` / `src/lib.rs`:
`&mut self.palette[..self.palette_count as usize]` (note: no `* 3`);
Rust slicing panics (here `none`) when the bound exceeds the length. -/
def Image.palette_mut (img : Image) : Option (List Nat) :=
  if img.palette_count ≤ img.palette.length then
    some (img.palette.take img.palette_count)
  else none

/-- Arguments passed to the native `blit` entry point. -/
structure BlitArgs : Type where
  x : Nat
  y : Nat
  srcLen : Nat
  width : Nat
  height : Nat
  src_x : Nat
  src_y : Nat
  src_width : Nat
  src_height : Nat
deriving DecidableEq, Repr

/-- Outcome of a slice-taking drawing wrapper: either a panic before the
foreign boundary, or exactly one forwarded native call. -/
inductive DrawOutcome (α : Type) : Type
  | panicked : DrawOutcome α
  | forwarded : α → DrawOutcome α

/-- Embeds `blit` from `src/video.rs`: panics when
`width as usize * height as usize > source.len()`, otherwise forwards the
arguments to the native `blit` once. -/
def blit (x y : Nat) (source : List Nat)
    (width height src_x src_y src_width src_height : Nat) :
    DrawOutcome BlitArgs :=
  if width * height > source.length then .panicked
  else .forwarded ⟨x, y, source.length, width, height,
    src_x, src_y, src_width, src_height⟩

/-- Arguments passed to the native `maskblit` entry point. -/
structure MaskBlitArgs : Type where
  base : BlitArgs
  color_key : Nat
deriving DecidableEq, Repr

/-- Embeds `mask_blit` from `src/video.rs`: same length check as `blit`,
then one forwarded native `maskblit` call. -/
def mask_blit (x y : Nat) (source : List Nat)
    (width height src_x src_y src_width src_height color_key : Nat) :
    DrawOutcome MaskBlitArgs :=
  if width * height > source.length then .panicked
  else .forwarded ⟨⟨x, y, source.length, width, height,
    src_x, src_y, src_width, src_height⟩, color_key⟩

/-- Arguments passed to the native `drawpoly` / `fillpoly` entry points:
the flat point list and the `points.len() as c_int` count. -/
structure PolyArgs : Type where
  points : List Nat
  count : Int
deriving DecidableEq, Repr

/-- Embeds `draw_poly` from `src/video.rs`:
`assert!(points.len() > 0 && points.len() % 2 == 0)`, then one forwarded
native `drawpoly` call. -/
def draw_poly (points : List Nat) : DrawOutcome PolyArgs :=
  if points.length > 0 ∧ points.length % 2 = 0 then
    .forwarded ⟨points, usizeToI32 points.length⟩
  else .panicked

/-- Embeds `fill_poly` from `src/video.rs`: same assertion, then one
forwarded native `fillpoly` call. -/
def fill_poly (points : List Nat) : DrawOutcome PolyArgs :=
  if points.length > 0 ∧ points.length % 2 = 0 then
    .forwarded ⟨points, usizeToI32 points.length⟩
  else .panicked

/-- Embeds the read loop of `read_keys` / `read_chars` from
`src/input.rs` over a key-code buffer (`for i in 0..=255`, breaking at
the first zero entry): `fuel` is the number of remaining iterations. -/
def readFrom (buf : Nat → Nat) : Nat → Nat → List Nat
  | _, 0 => []
  | i, fuel + 1 =>
    let c := buf i
    if c = 0 then [] else c :: readFrom buf (i + 1) fuel

/-- Embeds `read_keys` from `src/input.rs`: the native `readkeys` buffer
is read at indices `0..=255`, stopping at the first zero key code; every
read entry is copied into the owned result. -/
def read_keys (readkeys : Nat → Nat) : List Nat :=
  readFrom readkeys 0 256

/-- Embeds the read loop of `read_chars` over a `c_char` buffer: the break
test is on the `c_char` value, the pushed element is `c as u8`. -/
def readCharsFrom (cbuf : Nat → Int) : Nat → Nat → List Nat
  | _, 0 => []
  | i, fuel + 1 =>
    let c := cbuf i
    if c = 0 then [] else intToU8 c :: readCharsFrom cbuf (i + 1) fuel

/-- Embeds `read_chars` from `src/input.rs`: the native `readchars`
buffer is read at indices `0..=255`, stopping at the first zero byte;
each entry is cast `as u8` and copied into the owned result. -/
def read_chars (readchars : Nat → Int) : List Nat :=
  readCharsFrom readchars 0 256

/-- Embeds the `VideoMode` enum from `src/video.rs` (14 variants). -/
inductive VideoMode : Type
  | Text40x25_8x8 | Text40x25_9x16 | Text80x25_8x8 | Text80x25_8x16
  | Text80x25_9x16 | Text80x43_8x8 | Text80x50_8x8
  | Graphics320x200 | Graphics320x240 | Graphics320x400
  | Graphics640x200 | Graphics640x350 | Graphics640x400 | Graphics640x480
deriving DecidableEq, Repr

/-- Modelled from the spec: the native `videomode_t` constants come from
the generated `dos-like-sys` bindings, which are not under `src/`; the
spec says the video modes form a closed set mapped one-to-one onto native
integer constants, and the underlying C enum assigns consecutive values
in declaration order starting at 0.  This is the `mode as u32`
discriminant of each `VideoMode` variant. -/
def VideoMode.toNative : VideoMode → Nat
  | .Text40x25_8x8 => 0
  | .Text40x25_9x16 => 1
  | .Text80x25_8x8 => 2
  | .Text80x25_8x16 => 3
  | .Text80x25_9x16 => 4
  | .Text80x43_8x8 => 5
  | .Text80x50_8x8 => 6
  | .Graphics320x200 => 7
  | .Graphics320x240 => 8
  | .Graphics320x400 => 9
  | .Graphics640x200 => 10
  | .Graphics640x350 => 11
  | .Graphics640x400 => 12
  | .Graphics640x480 => 13

/-- The variant of `VideoMode` having a given native discriminant,
if any. -/
def VideoMode.fromNative : Nat → Option VideoMode
  | 0 => some .Text40x25_8x8
  | 1 => some .Text40x25_9x16
  | 2 => some .Text80x25_8x8
  | 3 => some .Text80x25_8x16
  | 4 => some .Text80x25_9x16
  | 5 => some .Text80x43_8x8
  | 6 => some .Text80x50_8x8
  | 7 => some .Graphics320x200
  | 8 => some .Graphics320x240
  | 9 => some .Graphics320x400
  | 10 => some .Graphics640x200
  | 11 => some .Graphics640x350
  | 12 => some .Graphics640x400
  | 13 => some .Graphics640x480
  | _ => none

/-- Embeds the `SoundMode` enum from `src/sound.rs` (28 variants). -/
inductive SoundMode : Type
  | Mono8bit5000 | Mono8bit8000 | Mono8bit11025 | Mono8bit16000
  | Mono8bit22050 | Mono8bit32000 | Mono8bit44100
  | Mono16Bit5000 | Mono16Bit8000 | Mono16Bit11025 | Mono16Bit16000
  | Mono16Bit22050 | Mono16Bit32000 | Mono16Bit44100
  | Stereo8Bit5000 | Stereo8Bit8000 | Stereo8Bit11025 | Stereo8Bit16000
  | Stereo8Bit22050 | Stereo8Bit32000 | Stereo8Bit44100
  | Stereo16Bit5000 | Stereo16Bit8000 | Stereo16Bit11025 | Stereo16Bit16000
  | Stereo16Bit22050 | Stereo16Bit32000 | Stereo16Bit44100
deriving DecidableEq, Repr

/-- Modelled from the spec: the native `soundmode_t` constants come from
the generated `dos-like-sys` bindings, which are not under `src/`; the
underlying C enum assigns consecutive values in declaration order
starting at 0.  This is the `sound_mode as u32` discriminant of each
`SoundMode` variant. -/
def SoundMode.toNative : SoundMode → Nat
  | .Mono8bit5000 => 0
  | .Mono8bit8000 => 1
  | .Mono8bit11025 => 2
  | .Mono8bit16000 => 3
  | .Mono8bit22050 => 4
  | .Mono8bit32000 => 5
  | .Mono8bit44100 => 6
  | .Mono16Bit5000 => 7
  | .Mono16Bit8000 => 8
  | .Mono16Bit11025 => 9
  | .Mono16Bit16000 => 10
  | .Mono16Bit22050 => 11
  | .Mono16Bit32000 => 12
  | .Mono16Bit44100 => 13
  | .Stereo8Bit5000 => 14
  | .Stereo8Bit8000 => 15
  | .Stereo8Bit11025 => 16
  | .Stereo8Bit16000 => 17
  | .Stereo8Bit22050 => 18
  | .Stereo8Bit32000 => 19
  | .Stereo8Bit44100 => 20
  | .Stereo16Bit5000 => 21
  | .Stereo16Bit8000 => 22
  | .Stereo16Bit11025 => 23
  | .Stereo16Bit16000 => 24
  | .Stereo16Bit22050 => 25
  | .Stereo16Bit32000 => 26
  | .Stereo16Bit44100 => 27

/-- The variant of `SoundMode` having a given native discriminant,
if any. -/
def SoundMode.fromNative : Nat → Option SoundMode
  | 0 => some .Mono8bit5000
  | 1 => some .Mono8bit8000
  | 2 => some .Mono8bit11025
  | 3 => some .Mono8bit16000
  | 4 => some .Mono8bit22050
  | 5 => some .Mono8bit32000
  | 6 => some .Mono8bit44100
  | 7 => some .Mono16Bit5000
  | 8 => some .Mono16Bit8000
  | 9 => some .Mono16Bit11025
  | 10 => some .Mono16Bit16000
  | 11 => some .Mono16Bit22050
  | 12 => some .Mono16Bit32000
  | 13 => some .Mono16Bit44100
  | 14 => some .Stereo8Bit5000
  | 15 => some .Stereo8Bit8000
  | 16 => some .Stereo8Bit11025
  | 17 => some .Stereo8Bit16000
  | 18 => some .Stereo8Bit22050
  | 19 => some .Stereo8Bit32000
  | 20 => some .Stereo8Bit44100
  | 21 => some .Stereo16Bit5000
  | 22 => some .Stereo16Bit8000
  | 23 => some .Stereo16Bit11025
  | 24 => some .Stereo16Bit16000
  | 25 => some .Stereo16Bit22050
  | 26 => some .Stereo16Bit32000
  | 27 => some .Stereo16Bit44100
  | _ => none

/-- A native palette store: the RGB triple (as `c_int` values) held at
each of the 256 palette indices, indexed here by `Int` to match the
`c_int` index parameter of the native calls. -/
def PalState : Type := Int → Int × Int × Int

/-- Modelled from the spec: the native `setpal` routine lives in the
wrapped dos-like C library (vendored by `dos-like-sys`, not under
`src/`); per the spec the palette is a fixed-size array of 256 colors ×
RGB, so `setpal(i, r, g, b)` stores the triple at index `i` when the
index is within `0..=255` and has no effect otherwise. -/
def native_setpal (st : PalState) (i r g b : Int) : PalState :=
  if 0 ≤ i ∧ i < 256 then
    fun j => if j = i then (r, g, b) else st j
  else st

/-- Modelled from the spec: the native `getpal` routine of the wrapped
dos-like C library reads the stored RGB triple at index `i` when the
index is within `0..=255`, and leaves the out-parameters at their
initial value 0 otherwise. -/
def native_getpal (st : PalState) (i : Int) : Int × Int × Int :=
  if 0 ≤ i ∧ i < 256 then st i else (0, 0, 0)

/-- Embeds `set_pal` from `src/video.rs`: forwards
`setpal(index as c_int, r as c_int, g as c_int, b as c_int)`. -/
def set_pal (st : PalState) (index : Nat) (r g b : Nat) : PalState :=
  native_setpal st (usizeToI32 index) (r : Int) (g : Int) (b : Int)

/-- Embeds `pal` from `src/video.rs`: calls
`getpal(index as c_int, &mut r, &mut g, &mut b)` and returns
`(r as u8, g as u8, b as u8)`. -/
def pal (st : PalState) (index : Nat) : Nat × Nat × Nat :=
  let t := native_getpal st (usizeToI32 index)
  (intToU8 t.1, intToU8 t.2.1, intToU8 t.2.2)

/-- Modelled from the spec: the native constant `DEFAULT_FONT_8X8` comes
from the generated bindings (not under `src/`); the crate asserts it is
nonzero, and the C header defines the three default fonts as the
consecutive nonzero identifiers 1, 2, 3. -/
def DEFAULT_FONT_8X8 : Nat := 1

/-- Modelled from the spec: native constant `DEFAULT_FONT_8X16` from the
generated bindings, the second default font identifier. -/
def DEFAULT_FONT_8X16 : Nat := 2

/-- Modelled from the spec: native constant `DEFAULT_FONT_9X16` from the
generated bindings, the third default font identifier. -/
def DEFAULT_FONT_9X16 : Nat := 3

/-- Embeds `Font::DEFAULT_8X8` from `src/video.rs`. -/
def Font.DEFAULT_8X8 : Font := ⟨DEFAULT_FONT_8X8, by decide⟩

/-- Embeds `Font::DEFAULT_8X16` from `src/video.rs`. -/
def Font.DEFAULT_8X16 : Font := ⟨DEFAULT_FONT_8X16, by decide⟩

/-- Embeds `Font::DEFAULT_9X16` from `src/video.rs`. -/
def Font.DEFAULT_9X16 : Font := ⟨DEFAULT_FONT_9X16, by decide⟩

/-- Modelled from the spec: native constant `DEFAULT_SOUNDBANK_AWE32`
from the generated bindings (not under `src/`); the crate asserts it is
nonzero, and the C header defines the two default soundbanks as the
consecutive nonzero identifiers 1, 2. -/
def DEFAULT_SOUNDBANK_AWE32 : Nat := 1

/-- Modelled from the spec: native constant `DEFAULT_SOUNDBANK_SB16`
from the generated bindings, the second default soundbank identifier. -/
def DEFAULT_SOUNDBANK_SB16 : Nat := 2

/-- Embeds `Soundbank::DEFAULT_AWE32` from `src/music.rs`. -/
def Soundbank.DEFAULT_AWE32 : Soundbank := ⟨DEFAULT_SOUNDBANK_AWE32, by decide⟩

/-- Embeds `Soundbank::DEFAULT_SB16` from `src/music.rs`. -/
def Soundbank.DEFAULT_SB16 : Soundbank := ⟨DEFAULT_SOUNDBANK_SB16, by decide⟩

theorem cstring_new_of_mem {s : List Nat} (h : 0 ∈ s) :
    cstring_new s = none := by
  simp [cstring_new, h]

theorem cstring_new_of_not_mem {s : List Nat} (h : 0 ∉ s) :
    cstring_new s = some (s ++ [0]) := by
  simp [cstring_new, h]

theorem intToU32_lt (x : Int) : intToU32 x < 2 ^ 32 := by
  unfold intToU32
  omega

theorem intToU32_u32ToI32 (x : Nat) (h : x < 2 ^ 32) :
    intToU32 (u32ToI32 x) = x := by
  unfold intToU32 u32ToI32
  split <;> omega

/-- Claim C1: for every path containing a null byte, each of the eight
load/install wrappers returns `Err(FileError::BadFilePath)` with an empty
native-call trace, i.e. the malformed path is rejected before crossing
the foreign boundary. -/
theorem claim_C1_null_path_rejected (path : List Nat) (h : 0 ∈ path)
    (loadgif : List Nat → Option GifOut)
    (loadwav loadmid loadmus loadmod loadopb : List Nat → Nat)
    (installuserfont installusersoundbank : List Nat → Int) :
    load_gif loadgif path = ⟨.error .BadFilePath, []⟩ ∧
    load_wav loadwav path = ⟨.error .BadFilePath, []⟩ ∧
    load_mid loadmid path = ⟨.error .BadFilePath, []⟩ ∧
    load_mus loadmus path = ⟨.error .BadFilePath, []⟩ ∧
    load_mod loadmod path = ⟨.error .BadFilePath, []⟩ ∧
    load_opb loadopb path = ⟨.error .BadFilePath, []⟩ ∧
    install_user_font installuserfont path = ⟨.error .BadFilePath, []⟩ ∧
    install_user_soundbank installusersoundbank path
      = ⟨.error .BadFilePath, []⟩ := by
  refine ⟨?_, ?_, ?_, ?_, ?_, ?_, ?_, ?_⟩ <;>
    simp [load_gif, load_wav, load_mid, load_mus, load_mod, load_opb,
      install_user_font, install_user_soundbank, cstring_new_of_mem h]

theorem claim_C1_witness :
    load_gif (fun _ => none) [104, 0, 105] = ⟨.error .BadFilePath, []⟩ ∧
    load_wav (fun _ => 7) [104, 0, 105] = ⟨.error .BadFilePath, []⟩ ∧
    load_mid (fun _ => 7) [104, 0, 105] = ⟨.error .BadFilePath, []⟩ ∧
    load_mus (fun _ => 7) [104, 0, 105] = ⟨.error .BadFilePath, []⟩ ∧
    load_mod (fun _ => 7) [104, 0, 105] = ⟨.error .BadFilePath, []⟩ ∧
    load_opb (fun _ => 7) [104, 0, 105] = ⟨.error .BadFilePath, []⟩ ∧
    install_user_font (fun _ => 7) [104, 0, 105]
      = ⟨.error .BadFilePath, []⟩ ∧
    install_user_soundbank (fun _ => 7) [104, 0, 105]
      = ⟨.error .BadFilePath, []⟩ :=
  claim_C1_null_path_rejected [104, 0, 105] (by decide)
    (fun _ => none) (fun _ => 7) (fun _ => 7) (fun _ => 7) (fun _ => 7)
    (fun _ => 7) (fun _ => 7) (fun _ => 7)

theorem font_from_id_eq (x : Nat) (hlt : x < 2 ^ 32) :
    Font.from_id x = if h : x = 0 then none else some ⟨x, h⟩ := by
  unfold Font.from_id Font.from_raw_id nonZeroU32_new
  rw [intToU32_u32ToI32 x hlt]
  split <;> rfl

theorem soundbank_from_id_eq (x : Nat) (hlt : x < 2 ^ 32) :
    Soundbank.from_id x = if h : x = 0 then none else some ⟨x, h⟩ := by
  unfold Soundbank.from_id Soundbank.from_raw_id nonZeroU32_new
  rw [intToU32_u32ToI32 x hlt]
  split <;> rfl

theorem font_from_id_zero : Font.from_id 0 = none := by
  simp [font_from_id_eq 0 (by norm_num)]

theorem soundbank_from_id_zero : Soundbank.from_id 0 = none := by
  simp [soundbank_from_id_eq 0 (by norm_num)]

/-- Claim C2: for every well-formed path, each load/install wrapper makes
exactly one native call (passing the null-terminated path), returns
`Err(FileError::FileNotFound)` exactly when the native call reports
failure (a null pointer, resp. a zero identifier once truncated `as u32`,
which for `c_int`-ranged values is exactly the value zero), and otherwise
returns `Ok` with a handle wrapping the native result; every outcome is a
returned value, never a panic. -/
theorem claim_C2_native_failure_mapping (path : List Nat) (h : 0 ∉ path)
    (loadgif : List Nat → Option GifOut)
    (loadwav loadmid loadmus loadmod loadopb : List Nat → Nat)
    (installuserfont installusersoundbank : List Nat → Int) :
    ((load_gif loadgif path).trace = [path ++ [0]] ∧
      (loadgif (path ++ [0]) = none →
        (load_gif loadgif path).result = .error .FileNotFound) ∧
      (∀ g, loadgif (path ++ [0]) = some g →
        (load_gif loadgif path).result
          = .ok ⟨g.palette, intToU32 g.palcount, intToU32 g.width,
              intToU32 g.height, g.dataPtr⟩)) ∧
    ((load_wav loadwav path).trace = [path ++ [0]] ∧
      (loadwav (path ++ [0]) = 0 →
        (load_wav loadwav path).result = .error .FileNotFound) ∧
      (loadwav (path ++ [0]) ≠ 0 →
        (load_wav loadwav path).result = .ok ⟨loadwav (path ++ [0])⟩)) ∧
    ((load_mid loadmid path).trace = [path ++ [0]] ∧
      (loadmid (path ++ [0]) = 0 →
        (load_mid loadmid path).result = .error .FileNotFound) ∧
      (∀ hp : loadmid (path ++ [0]) ≠ 0,
        (load_mid loadmid path).result = .ok ⟨loadmid (path ++ [0]), hp⟩)) ∧
    ((load_mus loadmus path).trace = [path ++ [0]] ∧
      (loadmus (path ++ [0]) = 0 →
        (load_mus loadmus path).result = .error .FileNotFound) ∧
      (∀ hp : loadmus (path ++ [0]) ≠ 0,
        (load_mus loadmus path).result = .ok ⟨loadmus (path ++ [0]), hp⟩)) ∧
    ((load_mod loadmod path).trace = [path ++ [0]] ∧
      (loadmod (path ++ [0]) = 0 →
        (load_mod loadmod path).result = .error .FileNotFound) ∧
      (∀ hp : loadmod (path ++ [0]) ≠ 0,
        (load_mod loadmod path).result = .ok ⟨loadmod (path ++ [0]), hp⟩)) ∧
    ((load_opb loadopb path).trace = [path ++ [0]] ∧
      (loadopb (path ++ [0]) = 0 →
        (load_opb loadopb path).result = .error .FileNotFound) ∧
      (∀ hp : loadopb (path ++ [0]) ≠ 0,
        (load_opb loadopb path).result = .ok ⟨loadopb (path ++ [0]), hp⟩)) ∧
    ((install_user_font installuserfont path).trace = [path ++ [0]] ∧
      (intToU32 (installuserfont (path ++ [0])) = 0 →
        (install_user_font installuserfont path).result
          = .error .FileNotFound) ∧
      (∀ hp : intToU32 (installuserfont (path ++ [0])) ≠ 0,
        (install_user_font installuserfont path).result
          = .ok ⟨intToU32 (installuserfont (path ++ [0])), hp⟩)) ∧
    ((install_user_soundbank installusersoundbank path).trace
        = [path ++ [0]] ∧
      (intToU32 (installusersoundbank (path ++ [0])) = 0 →
        (install_user_soundbank installusersoundbank path).result
          = .error .FileNotFound) ∧
      (∀ hp : intToU32 (installusersoundbank (path ++ [0])) ≠ 0,
        (install_user_soundbank installusersoundbank path).result
          = .ok ⟨intToU32 (installusersoundbank (path ++ [0])), hp⟩)) ∧
    (∀ x : Int, -(2 ^ 31) ≤ x → x < 2 ^ 31 → (intToU32 x = 0 ↔ x = 0)) := by
  have hc := cstring_new_of_not_mem h
  refine ⟨⟨?_, ?_, ?_⟩, ⟨?_, ?_, ?_⟩, ⟨?_, ?_, ?_⟩, ⟨?_, ?_, ?_⟩,
    ⟨?_, ?_, ?_⟩, ⟨?_, ?_, ?_⟩, ⟨?_, ?_, ?_⟩, ⟨?_, ?_, ?_⟩, ?_⟩
  · simp only [load_gif, hc]
    cases loadgif (path ++ [0]) <;> rfl
  · intro hn
    simp [load_gif, hc, hn]
  · intro g hg
    simp [load_gif, hc, hg]
  · simp only [load_wav, hc]
    by_cases hp : loadwav (path ++ [0]) = 0 <;> simp [hp]
  · intro hp
    simp [load_wav, hc, hp]
  · intro hp
    simp [load_wav, hc, hp]
  · simp only [load_mid, hc, nonNull_new]
    by_cases hp : loadmid (path ++ [0]) = 0 <;> simp [hp]
  · intro hp
    simp [load_mid, hc, nonNull_new, hp]
  · intro hp
    simp [load_mid, hc, nonNull_new, hp]
  · simp only [load_mus, hc, nonNull_new]
    by_cases hp : loadmus (path ++ [0]) = 0 <;> simp [hp]
  · intro hp
    simp [load_mus, hc, nonNull_new, hp]
  · intro hp
    simp [load_mus, hc, nonNull_new, hp]
  · simp only [load_mod, hc, nonNull_new]
    by_cases hp : loadmod (path ++ [0]) = 0 <;> simp [hp]
  · intro hp
    simp [load_mod, hc, nonNull_new, hp]
  · intro hp
    simp [load_mod, hc, nonNull_new, hp]
  · simp only [load_opb, hc, nonNull_new]
    by_cases hp : loadopb (path ++ [0]) = 0 <;> simp [hp]
  · intro hp
    simp [load_opb, hc, nonNull_new, hp]
  · intro hp
    simp [load_opb, hc, nonNull_new, hp]
  · simp only [install_user_font, hc,
      font_from_id_eq _ (intToU32_lt (installuserfont (path ++ [0])))]
    by_cases hp : intToU32 (installuserfont (path ++ [0])) = 0 <;> simp [hp]
  · intro hp
    simp [install_user_font, hc, hp, font_from_id_zero]
  · intro hp
    simp [install_user_font, hc,
      font_from_id_eq _ (intToU32_lt (installuserfont (path ++ [0]))), hp]
  · simp only [install_user_soundbank, hc,
      soundbank_from_id_eq _
        (intToU32_lt (installusersoundbank (path ++ [0])))]
    by_cases hp : intToU32 (installusersoundbank (path ++ [0])) = 0 <;>
      simp [hp]
  · intro hp
    simp [install_user_soundbank, hc, hp, soundbank_from_id_zero]
  · intro hp
    simp [install_user_soundbank, hc,
      soundbank_from_id_eq _
        (intToU32_lt (installusersoundbank (path ++ [0]))), hp]
  · intro x h1 h2
    unfold intToU32
    omega

theorem claim_C2_witness :
    (load_gif (fun _ => some ⟨2, 3, 4, [9], 5⟩) [97]).trace = [[97, 0]] ∧
    (load_gif (fun _ => some ⟨2, 3, 4, [9], 5⟩) [97]).result
      = .ok ⟨[9], intToU32 4, intToU32 2, intToU32 3, 5⟩ ∧
    (load_wav (fun _ => 0) [97]).result = .error .FileNotFound ∧
    (load_mid (fun _ => 6) [97]).result = .ok ⟨6, Nat.succ_ne_zero 5⟩ ∧
    (load_mus (fun _ => 6) [97]).result = .ok ⟨6, Nat.succ_ne_zero 5⟩ ∧
    (load_mod (fun _ => 6) [97]).result = .ok ⟨6, Nat.succ_ne_zero 5⟩ ∧
    (load_opb (fun _ => 0) [97]).result = .error .FileNotFound ∧
    (install_user_font (fun _ => 7) [97]).result
      = .ok ⟨intToU32 7, by decide⟩ ∧
    (install_user_soundbank (fun _ => 0) [97]).result
      = .error .FileNotFound ∧
    (intToU32 3 = 0 ↔ (3 : Int) = 0) := by
  obtain ⟨hg, hw, hmid, hmus, hmod, hopb, hf, hsb, hbr⟩ :=
    claim_C2_native_failure_mapping [97] (by decide)
      (fun _ => some ⟨2, 3, 4, [9], 5⟩) (fun _ => 0) (fun _ => 6)
      (fun _ => 6) (fun _ => 6) (fun _ => 0) (fun _ => 7) (fun _ => 0)
  exact ⟨hg.1, hg.2.2 _ rfl, hw.2.1 rfl, hmid.2.2 (Nat.succ_ne_zero 5),
    hmus.2.2 (Nat.succ_ne_zero 5), hmod.2.2 (Nat.succ_ne_zero 5),
    hopb.2.1 rfl, hf.2.2 (by decide), hsb.2.1 (by decide),
    hbr 3 (by decide) (by decide)⟩

theorem intToUsize_eq (x : Int) (h1 : 0 ≤ x) (h2 : x < 2 ^ 64) :
    intToUsize x = x.toNat := by
  unfold intToUsize
  omega

/-- Claim C3: the slices returned by `screen_buffer` and `swap_buffers`
have length equal to the product of the native `screenwidth()` and
`screenheight()` values queried at the time of the call (for
`swap_buffers`, after the native swap), whenever those `c_int` values are
within range. -/
theorem claim_C3_buffer_length {σ : Type} (sys : VideoSys σ) (s : σ) :
    (0 ≤ sys.screenwidth s → sys.screenwidth s < 2 ^ 64 →
      0 ≤ sys.screenheight s → sys.screenheight s < 2 ^ 64 →
      (screen_buffer sys s).len
        = (sys.screenwidth s).toNat * (sys.screenheight s).toNat) ∧
    (0 ≤ sys.screenwidth (sys.swapbuffers s).1 →
      sys.screenwidth (sys.swapbuffers s).1 < 2 ^ 64 →
      0 ≤ sys.screenheight (sys.swapbuffers s).1 →
      sys.screenheight (sys.swapbuffers s).1 < 2 ^ 64 →
      (swap_buffers sys s).2.len
        = (sys.screenwidth (sys.swapbuffers s).1).toNat
          * (sys.screenheight (sys.swapbuffers s).1).toNat) := by
  constructor
  · intro hw1 hw2 hh1 hh2
    simp [screen_buffer, intToUsize_eq _ hw1 hw2, intToUsize_eq _ hh1 hh2]
  · intro hw1 hw2 hh1 hh2
    simp [swap_buffers, intToUsize_eq _ hw1 hw2, intToUsize_eq _ hh1 hh2]

/-- A concrete video subsystem over a unit state, used as witness input:
buffer pointer 11, swapped pointer 22, resolution 320x200. -/
def sampleVideoSys : VideoSys Unit :=
  ⟨fun _ => 11, fun s => (s, 22), fun _ => 320, fun _ => 200⟩

theorem claim_C3_witness :
    (screen_buffer sampleVideoSys ()).len
      = (sampleVideoSys.screenwidth ()).toNat
        * (sampleVideoSys.screenheight ()).toNat ∧
    (swap_buffers sampleVideoSys ()).2.len
      = (sampleVideoSys.screenwidth (sampleVideoSys.swapbuffers ()).1).toNat
        * (sampleVideoSys.screenheight
            (sampleVideoSys.swapbuffers ()).1).toNat :=
  ⟨(claim_C3_buffer_length sampleVideoSys ()).1 (by decide) (by decide)
      (by decide) (by decide),
    (claim_C3_buffer_length sampleVideoSys ()).2 (by decide) (by decide)
      (by decide) (by decide)⟩

/-- Claim C4 (code-bug exhibit): in the cursor state where the native
`wherex` query returns 1 and `wherey` returns 2, `where_y()` returns 1 —
its body forwards to the native `wherex` entry point, not `wherey` —
while the claimed value (the `wherey` result clamped to non-negative and
truncated to `u16`) is 2; `where_x()` does mirror `wherex`. -/
theorem claim_C4_where_y_calls_wherex :
    where_y ⟨1, 2⟩ = 1 ∧
    intToU16 (max (CursorState.mk 1 2).wherey 0) = 2 ∧
    where_x ⟨1, 2⟩ = 1 := by
  refine ⟨?_, ?_, ?_⟩ <;> decide

set_option maxRecDepth 4000 in
/-- Claim C5 (code-bug exhibit): for an `Image` with `palette_count = 1`
over the full 768-byte palette array, `palette()` yields a 3-byte slice
but `palette_mut()` yields a 1-byte slice — the `* 3` factor is missing
from `palette_mut`'s slice bound. -/
theorem claim_C5_palette_mut_length_mismatch :
    ((⟨List.replicate 768 0, 1, 4, 4, 5⟩ : Image).paletteView).map
        List.length = some 3 ∧
    ((⟨List.replicate 768 0, 1, 4, 4, 5⟩ : Image).palette_mut).map
        List.length = some 1 := by
  constructor <;> decide

/-- Claim C6: `blit` and `mask_blit` panic, without any native call,
exactly when `width * height` exceeds the source length; `draw_poly` and
`fill_poly` panic exactly when the point list is empty or of odd length;
in every other case each function forwards its arguments to its native
entry point exactly once. -/
theorem claim_C6_draw_validation (x y : Nat) (source : List Nat)
    (width height src_x src_y src_width src_height color_key : Nat)
    (points : List Nat) :
    (blit x y source width height src_x src_y src_width src_height
        = .panicked ↔ width * height > source.length) ∧
    (width * height ≤ source.length →
      blit x y source width height src_x src_y src_width src_height
        = .forwarded ⟨x, y, source.length, width, height,
            src_x, src_y, src_width, src_height⟩) ∧
    (mask_blit x y source width height src_x src_y src_width src_height
        color_key = .panicked ↔ width * height > source.length) ∧
    (width * height ≤ source.length →
      mask_blit x y source width height src_x src_y src_width src_height
          color_key
        = .forwarded ⟨⟨x, y, source.length, width, height,
            src_x, src_y, src_width, src_height⟩, color_key⟩) ∧
    (draw_poly points = .panicked
      ↔ points = [] ∨ points.length % 2 = 1) ∧
    (points ≠ [] → points.length % 2 = 0 →
      draw_poly points = .forwarded ⟨points, usizeToI32 points.length⟩) ∧
    (fill_poly points = .panicked
      ↔ points = [] ∨ points.length % 2 = 1) ∧
    (points ≠ [] → points.length % 2 = 0 →
      fill_poly points = .forwarded ⟨points, usizeToI32 points.length⟩) := by
  have hpts : (points.length > 0 ∧ points.length % 2 = 0)
      ↔ ¬(points = [] ∨ points.length % 2 = 1) := by
    rcases points with _ | ⟨a, l⟩ <;> simp
  refine ⟨?_, ?_, ?_, ?_, ?_, ?_, ?_, ?_⟩
  · unfold blit
    split <;> simp_all
  · intro hle
    unfold blit
    split <;> first | omega | rfl
  · unfold mask_blit
    split <;> simp_all
  · intro hle
    unfold mask_blit
    split <;> first | omega | rfl
  · unfold draw_poly
    rcases points with _ | ⟨a, l⟩
    · simp
    · split <;> rename_i hcond <;> simp_all
  · intro h1 h2
    unfold draw_poly
    rw [if_pos (hpts.mpr (by simp [h1, h2]))]
  · unfold fill_poly
    rcases points with _ | ⟨a, l⟩
    · simp
    · split <;> rename_i hcond <;> simp_all
  · intro h1 h2
    unfold fill_poly
    rw [if_pos (hpts.mpr (by simp [h1, h2]))]

theorem claim_C6_witness :
    (blit 0 0 [1, 2, 3, 4] 2 2 0 0 2 2 = .panicked
      ↔ 2 * 2 > [1, 2, 3, 4].length) ∧
    blit 0 0 [1, 2, 3, 4] 2 2 0 0 2 2
      = .forwarded ⟨0, 0, [1, 2, 3, 4].length, 2, 2, 0, 0, 2, 2⟩ ∧
    mask_blit 0 0 [1, 2, 3, 4] 2 2 0 0 2 2 9
      = .forwarded ⟨⟨0, 0, [1, 2, 3, 4].length, 2, 2, 0, 0, 2, 2⟩, 9⟩ ∧
    (draw_poly [5, 6] = .panicked
      ↔ [5, 6] = [] ∨ [5, 6].length % 2 = 1) ∧
    draw_poly [5, 6] = .forwarded ⟨[5, 6], usizeToI32 [5, 6].length⟩ ∧
    fill_poly [5, 6] = .forwarded ⟨[5, 6], usizeToI32 [5, 6].length⟩ := by
  obtain ⟨h1, h2, h3, h4, h5, h6, h7, h8⟩ :=
    claim_C6_draw_validation 0 0 [1, 2, 3, 4] 2 2 0 0 2 2 9 [5, 6]
  exact ⟨h1, h2 (by decide), h4 (by decide), h5, h6 (by decide) (by decide),
    h8 (by decide) (by decide)⟩

/-- Claim C7: the variant-to-native-constant maps of `VideoMode` and
`SoundMode` are injective and round-trip: mapping any variant to its
native discriminant and back yields the original variant, so distinct
variants have distinct discriminants. -/
theorem claim_C7_mode_constant_roundtrip :
    (∀ v : VideoMode, VideoMode.fromNative v.toNative = some v) ∧
    (∀ v w : VideoMode, v.toNative = w.toNative → v = w) ∧
    (∀ v : SoundMode, SoundMode.fromNative v.toNative = some v) ∧
    (∀ v w : SoundMode, v.toNative = w.toNative → v = w) := by
  have hv : ∀ v : VideoMode, VideoMode.fromNative v.toNative = some v := by
    intro v
    cases v <;> rfl
  have hs : ∀ v : SoundMode, SoundMode.fromNative v.toNative = some v := by
    intro v
    cases v <;> rfl
  refine ⟨hv, ?_, hs, ?_⟩
  · intro v w h
    have h2 := hv v
    rw [h, hv w] at h2
    exact (Option.some.inj h2).symm
  · intro v w h
    have h2 := hs v
    rw [h, hs w] at h2
    exact (Option.some.inj h2).symm

theorem claim_C7_witness :
    VideoMode.fromNative VideoMode.Graphics320x200.toNative
      = some VideoMode.Graphics320x200 ∧
    VideoMode.Text80x25_8x16 = VideoMode.Text80x25_8x16 ∧
    SoundMode.fromNative SoundMode.Stereo16Bit44100.toNative
      = some SoundMode.Stereo16Bit44100 ∧
    SoundMode.Mono8bit5000 = SoundMode.Mono8bit5000 :=
  ⟨claim_C7_mode_constant_roundtrip.1 _,
    claim_C7_mode_constant_roundtrip.2.1 _ _ rfl,
    claim_C7_mode_constant_roundtrip.2.2.1 _,
    claim_C7_mode_constant_roundtrip.2.2.2 _ _ rfl⟩

theorem readFrom_eq_takeWhile (buf : Nat → Nat) :
    ∀ (fuel start : Nat),
      readFrom buf start fuel
        = ((List.range' start fuel).map buf).takeWhile fun c => c != 0
  | 0, _ => rfl
  | fuel + 1, start => by
    rw [List.range'_succ]
    simp only [List.map_cons, List.takeWhile_cons, readFrom]
    by_cases h : buf start = 0
    · simp [h]
    · simp [h, readFrom_eq_takeWhile buf fuel (start + 1)]

theorem readFrom_ne_zero (buf : Nat → Nat) :
    ∀ (fuel start k : Nat), k ∈ readFrom buf start fuel → k ≠ 0
  | 0, _, _, hk => by simp [readFrom] at hk
  | fuel + 1, start, k, hk => by
    simp only [readFrom] at hk
    by_cases h : buf start = 0
    · simp [h] at hk
    · rw [if_neg h] at hk
      rcases List.mem_cons.mp hk with h1 | h1
      · rw [h1]; exact h
      · exact readFrom_ne_zero buf fuel (start + 1) k h1

theorem readFrom_length_le (buf : Nat → Nat) :
    ∀ (fuel start : Nat), (readFrom buf start fuel).length ≤ fuel
  | 0, _ => by simp [readFrom]
  | fuel + 1, start => by
    simp only [readFrom]
    by_cases h : buf start = 0
    · simp [h]
    · rw [if_neg h]
      simpa using readFrom_length_le buf fuel (start + 1)

theorem intToU8_ne_zero {x : Int} (h1 : -128 ≤ x) (h2 : x < 128)
    (h3 : x ≠ 0) : intToU8 x ≠ 0 := by
  unfold intToU8
  omega

theorem readCharsFrom_eq_takeWhile (cbuf : Nat → Int)
    (hr : ∀ i, -128 ≤ cbuf i ∧ cbuf i < 128) :
    ∀ (fuel start : Nat),
      readCharsFrom cbuf start fuel
        = ((List.range' start fuel).map fun i => intToU8 (cbuf i)).takeWhile
            fun c => c != 0
  | 0, _ => rfl
  | fuel + 1, start => by
    rw [List.range'_succ]
    simp only [List.map_cons, List.takeWhile_cons, readCharsFrom]
    by_cases h : cbuf start = 0
    · have : intToU8 (cbuf start) = 0 := by rw [h]; rfl
      simp [h, this]
      rfl
    · have : intToU8 (cbuf start) ≠ 0 :=
        intToU8_ne_zero (hr start).1 (hr start).2 h
      simp [h, this, readCharsFrom_eq_takeWhile cbuf hr fuel (start + 1)]

theorem readCharsFrom_ne_zero (cbuf : Nat → Int)
    (hr : ∀ i, -128 ≤ cbuf i ∧ cbuf i < 128) :
    ∀ (fuel start k : Nat), k ∈ readCharsFrom cbuf start fuel → k ≠ 0
  | 0, _, _, hk => by simp [readCharsFrom] at hk
  | fuel + 1, start, k, hk => by
    simp only [readCharsFrom] at hk
    by_cases h : cbuf start = 0
    · simp [h] at hk
    · rw [if_neg h] at hk
      rcases List.mem_cons.mp hk with h1 | h1
      · rw [h1]
        exact intToU8_ne_zero (hr start).1 (hr start).2 h
      · exact readCharsFrom_ne_zero cbuf hr fuel (start + 1) k h1

theorem readCharsFrom_length_le (cbuf : Nat → Int) :
    ∀ (fuel start : Nat), (readCharsFrom cbuf start fuel).length ≤ fuel
  | 0, _ => by simp [readCharsFrom]
  | fuel + 1, start => by
    simp only [readCharsFrom]
    by_cases h : cbuf start = 0
    · simp [h]
    · rw [if_neg h]
      simpa using readCharsFrom_length_le cbuf fuel (start + 1)

/-- Claim C8: `read_keys` (and `read_chars`) returns an owned copy of the
native event buffer: exactly the longest zero-free prefix of the buffer,
reading at most 256 entries, and every returned element is nonzero (for
`read_chars`, under the `c_char` range of the native buffer entries). -/
theorem claim_C8_read_snapshot (readkeys : Nat → Nat)
    (readchars : Nat → Int) :
    read_keys readkeys
      = (((List.range 256).map readkeys).takeWhile fun c => c != 0) ∧
    (∀ k ∈ read_keys readkeys, k ≠ 0) ∧
    (read_keys readkeys).length ≤ 256 ∧
    (read_chars readchars).length ≤ 256 ∧
    ((∀ i, -128 ≤ readchars i ∧ readchars i < 128) →
      read_chars readchars
        = (((List.range 256).map fun i => intToU8 (readchars i)).takeWhile
            fun c => c != 0) ∧
      ∀ c ∈ read_chars readchars, c ≠ 0) := by
  refine ⟨?_, ?_, ?_, ?_, ?_⟩
  · rw [List.range_eq_range']
    exact readFrom_eq_takeWhile readkeys 256 0
  · exact fun k hk => readFrom_ne_zero readkeys 256 0 k hk
  · exact readFrom_length_le readkeys 256 0
  · exact readCharsFrom_length_le readchars 256 0
  · intro hr
    constructor
    · rw [List.range_eq_range']
      exact readCharsFrom_eq_takeWhile readchars hr 256 0
    · exact fun c hc => readCharsFrom_ne_zero readchars hr 256 0 c hc

theorem claim_C8_witness :
    read_keys (fun i => if i < 3 then i + 1 else 0)
      = (((List.range 256).map fun i => if i < 3 then i + 1 else 0
          ).takeWhile fun c => c != 0) ∧
    (read_keys (fun i => if i < 3 then i + 1 else 0)).length ≤ 256 ∧
    read_chars (fun i => if i < 2 then 65 else 0)
      = (((List.range 256).map fun i =>
            intToU8 (if i < 2 then 65 else 0)).takeWhile
          fun c => c != 0) := by
  obtain ⟨h1, h2, h3, h4, h5⟩ :=
    claim_C8_read_snapshot (fun i => if i < 3 then i + 1 else 0)
      (fun i => if i < 2 then 65 else 0)
  exact ⟨h1, h3, (h5 fun i => by split <;> norm_num).1⟩

theorem usizeToI32_small (x : Nat) (h : x < 2 ^ 31) :
    usizeToI32 x = (x : Int) := by
  unfold usizeToI32 u32ToI32
  split <;> omega

theorem intToU8_ofNat (r : Nat) (h : r < 256) : intToU8 (r : Int) = r := by
  unfold intToU8
  omega

/-- Claim C9: palette round-trip through the wrappers over the modelled
native palette store: for every index below 256 and every `u8` RGB
triple, `set_pal` then `pal` at the same index returns exactly the triple
set, and `pal` at any other in-range index is unchanged. -/
theorem claim_C9_palette_roundtrip (st : PalState) (i r g b : Nat)
    (hi : i < 256) (hr : r < 256) (hg : g < 256) (hb : b < 256) :
    pal (set_pal st i r g b) i = (r, g, b) ∧
    ∀ j : Nat, j < 256 → j ≠ i → pal (set_pal st i r g b) j = pal st j := by
  have hi' : usizeToI32 i = (i : Int) := usizeToI32_small i (by omega)
  have ci : (0 : Int) ≤ (i : Int) ∧ (i : Int) < 256 := by
    constructor <;> omega
  constructor
  · simp [pal, set_pal, native_getpal, native_setpal, hi', ci,
      intToU8_ofNat r hr, intToU8_ofNat g hg, intToU8_ofNat b hb]
  · intro j hj hne
    have hj' : usizeToI32 j = (j : Int) := usizeToI32_small j (by omega)
    have cj : (0 : Int) ≤ (j : Int) ∧ (j : Int) < 256 := by
      constructor <;> omega
    have hne' : (j : Int) ≠ (i : Int) := by exact_mod_cast hne
    simp [pal, set_pal, native_getpal, native_setpal, hi', hj', ci, cj, hne']

theorem claim_C9_witness :
    pal (set_pal (fun _ => (0, 0, 0)) 3 1 2 3) 3 = (1, 2, 3) ∧
    pal (set_pal (fun _ => (0, 0, 0)) 3 1 2 3) 4
      = pal (fun _ => (0, 0, 0)) 4 := by
  obtain ⟨h1, h2⟩ :=
    claim_C9_palette_roundtrip (fun _ => (0, 0, 0)) 3 1 2 3
      (by norm_num) (by norm_num) (by norm_num) (by norm_num)
  exact ⟨h1, h2 4 (by norm_num) (by norm_num)⟩

/-- Claim C10: `Font` and `Soundbank` identifiers are always nonzero:
`from_id` returns `none` exactly on id 0, every `some` result carries the
given id, the default font and soundbank constants are nonzero, and any
handle returned by `install_user_font` / `install_user_soundbank` has a
nonzero id. -/
theorem claim_C10_nonzero_handles (id : Nat) (hid : id < 2 ^ 32)
    (installuserfont installusersoundbank : List Nat → Int)
    (path : List Nat) :
    (Font.from_id id = none ↔ id = 0) ∧
    (∀ f : Font, Font.from_id id = some f → f.id = id) ∧
    (Soundbank.from_id id = none ↔ id = 0) ∧
    (∀ sb : Soundbank, Soundbank.from_id id = some sb → sb.id = id) ∧
    Font.DEFAULT_8X8.id ≠ 0 ∧
    Font.DEFAULT_8X16.id ≠ 0 ∧
    Font.DEFAULT_9X16.id ≠ 0 ∧
    Soundbank.DEFAULT_AWE32.id ≠ 0 ∧
    Soundbank.DEFAULT_SB16.id ≠ 0 ∧
    (∀ f : Font,
      (install_user_font installuserfont path).result = .ok f →
        f.id ≠ 0) ∧
    (∀ sb : Soundbank,
      (install_user_soundbank installusersoundbank path).result = .ok sb →
        sb.id ≠ 0) := by
  refine ⟨?_, ?_, ?_, ?_, by decide, by decide, by decide, by decide,
    by decide, ?_, ?_⟩
  · rw [font_from_id_eq id hid]
    split <;> simp_all
  · intro f hf
    rw [font_from_id_eq id hid] at hf
    split at hf
    · cases hf
    · cases hf
      rfl
  · rw [soundbank_from_id_eq id hid]
    split <;> simp_all
  · intro sb hsb
    rw [soundbank_from_id_eq id hid] at hsb
    split at hsb
    · cases hsb
    · cases hsb
      rfl
  · intro f _
    exact f.id_ne
  · intro sb _
    exact sb.id_ne

theorem claim_C10_witness :
    (Font.from_id 5 = none ↔ 5 = 0) ∧
    (Soundbank.from_id 5 = none ↔ 5 = 0) ∧
    Font.DEFAULT_8X8.id ≠ 0 ∧
    Soundbank.DEFAULT_AWE32.id ≠ 0 := by
  obtain ⟨h1, h2, h3, h4, h5, h6, h7, h8, h9, h10, h11⟩ :=
    claim_C10_nonzero_handles 5 (by norm_num) (fun _ => 7) (fun _ => 7) [97]
  exact ⟨h1, h3, h5, h8⟩

end DosLike
